import Mathlib

/-
  Verification of the Candidate Scoring & Admission Pipeline.

  Shallow embedding of the similarity engine (compare.py), the admission
  policy (pipeline.py), the call governor (extraction.py) and the fetch
  layer (retrieval.py).  Python strings are modelled as `List Char`
  (ASCII-faithful for all inputs appearing here), Python floats as exact
  real / rational arithmetic, Python sets as `Finset`, and the external
  network / LLM services as explicit oracle parameters.
-/
set_option maxHeartbeats 1600000

set_option linter.unusedVariables false

section TfidfReal

open Classical

/-- Python `str` is modelled as a list of characters. -/
abbrev Str := List Char

/-- Convenience: turn a Lean string literal into the model type. -/
def str (s : String) : Str := s.data

/-- Python `text.lower()` (ASCII). -/
def lowerStr (s : Str) : Str := s.map Char.toLower

/-- One character of Python `re.sub(r'[^\w\s-]', ' ', text)`: characters that
are not word characters, whitespace or hyphen are replaced by a space. -/
def keepChar (c : Char) : Char :=
  if c.isAlphanum || c = '_' || c.isWhitespace || c = '-' then c else ' '

/-- Python `text.split()`: split on whitespace runs, dropping empty pieces. -/
def pySplit (s : Str) : List Str :=
  (List.splitOnP (fun c => c.isWhitespace) s).filter (fun w => w ≠ [])

/-- Python `needle in hay` for strings: substring test. -/
def strContains (hay needle : Str) : Bool :=
  match hay with
  | [] => needle.isEmpty
  | _ :: rest => needle.isPrefixOf hay || strContains rest needle

/-- Python `" ".join(xs)`. -/
def joinSpace (xs : List Str) : Str := List.intercalate (str " ") xs

/-- `extract_noun_phrases` (compare.py, lines 20-67): lowercase, strip
punctuation except hyphens, split into words; unigrams longer than three
characters plus all bigrams and trigrams of consecutive words. -/
def extract_noun_phrases (text : Str) : Finset Str :=
  if text = [] then ∅
  else
    let t := (lowerStr text).map keepChar
    let words := pySplit t
    let unigrams := (words.filter (fun w => 3 < w.length)).toFinset
    let bigrams :=
      ((words.zip words.tail).map (fun p => p.1 ++ ' ' :: p.2)).toFinset
    let trigrams :=
      ((words.zip (words.tail.zip words.tail.tail)).map
        (fun p => p.1 ++ ' ' :: p.2.1 ++ ' ' :: p.2.2)).toFinset
    unigrams ∪ bigrams ∪ trigrams

/-- `jaccard_similarity` (compare.py, lines 137-163): intersection size over
union size, 0 when either set is empty. -/
def jaccard_similarity (set1 set2 : Finset Str) : ℚ :=
  if set1 = ∅ ∨ set2 = ∅ then 0
  else
    let intersection := (set1 ∩ set2).card
    let union := (set1 ∪ set2).card
    if union = 0 then 0 else (intersection : ℚ) / (union : ℚ)

/-- Term frequency (compare.py, line 103): `Counter(text.lower().split())`,
looked up with default 0. -/
def termCount (text : Str) (t : Str) : ℕ := (pySplit (lowerStr text)).count t

/-- Document count (compare.py, line 112): number of corpus documents whose
lowercased text contains the term as a substring. -/
def docCount (docs : List Str) (t : Str) : ℕ :=
  (docs.filter (fun d => strContains (lowerStr d) t)).length

/-- IDF (compare.py, lines 109-116): `log(N / (doc_count + 1))` with
`N = len(all_documents) + 2`, and 0 for terms appearing in no document. -/
noncomputable def idfVal (docs : List Str) (t : Str) : ℝ :=
  let N : ℝ := (docs.length : ℝ) + 2
  let dc := docCount docs t
  if 0 < dc then Real.log (N / ((dc : ℝ) + 1)) else 0

/-- One TF-IDF vector entry (compare.py, lines 122-124). -/
noncomputable def tfidfEntry (text : Str) (docs : List Str) (t : Str) : ℝ :=
  (termCount text t : ℝ) * idfVal docs t

/-- Squared Euclidean norm of a TF-IDF vector restricted to `terms`
(compare.py, lines 128-129, before the square root). -/
noncomputable def tfidfNormSq (text : Str) (docs : List Str) (terms : Finset Str) : ℝ :=
  terms.sum (fun t => tfidfEntry text docs t * tfidfEntry text docs t)

/-- `compute_tfidf_similarity` (compare.py, lines 70-134): cosine similarity
of the two TF-IDF vectors over the union of extracted terms, with 0-guards
for empty texts, empty term sets, and zero norms. -/
noncomputable def compute_tfidf_similarity (text1 text2 : Str) (all_documents : List Str) : ℝ :=
  if text1 = [] ∨ text2 = [] then 0
  else
    let terms1 := extract_noun_phrases text1
    let terms2 := extract_noun_phrases text2
    if terms1 = ∅ ∨ terms2 = ∅ then 0
    else
      let all_terms := terms1 ∪ terms2
      let dot := all_terms.sum
        (fun t => tfidfEntry text1 all_documents t * tfidfEntry text2 all_documents t)
      let norm1 := Real.sqrt (tfidfNormSq text1 all_documents all_terms)
      let norm2 := Real.sqrt (tfidfNormSq text2 all_documents all_terms)
      if norm1 = 0 ∨ norm2 = 0 then 0 else dot / (norm1 * norm2)

end TfidfReal

/-- `NormalizedTarget` (schemas.py). -/
structure NormalizedTarget where
  target_products_services : List Str
  target_customer_segments : List Str
  canonical_sic_names : List Str
  keywords : List Str
deriving DecidableEq

/-- `CandidateExtraction` (schemas.py). -/
structure CandidateExtraction where
  name : Str
  url : Option Str
  exchange : Option Str
  ticker : Option Str
  business_activity : Str
  customer_segment : Str
  sic_industry : Option Str
  evidence_urls : List Str
deriving DecidableEq

/-- `compute_service_similarity` (compare.py, lines 166-201): blend
`0.6 * jaccard + 0.4 * tfidf` of the joined target products text against the
candidate business-activity text, clamped to [0, 1]; the TF-IDF corpus is
the two texts themselves. -/
noncomputable def compute_service_similarity (target : NormalizedTarget)
    (candidate : CandidateExtraction) : ℝ :=
  let target_text := joinSpace target.target_products_services
  let candidate_text := candidate.business_activity
  let jaccard := jaccard_similarity (extract_noun_phrases target_text)
    (extract_noun_phrases candidate_text)
  let tfidf := compute_tfidf_similarity target_text candidate_text
    [target_text, candidate_text]
  min 1 (max 0 ((0.6 : ℝ) * (jaccard : ℝ) + (0.4 : ℝ) * tfidf))

/-- `compute_segment_similarity` (compare.py, lines 204-239): same blend for
the customer-segment texts. -/
noncomputable def compute_segment_similarity (target : NormalizedTarget)
    (candidate : CandidateExtraction) : ℝ :=
  let target_text := joinSpace target.target_customer_segments
  let candidate_text := candidate.customer_segment
  let jaccard := jaccard_similarity (extract_noun_phrases target_text)
    (extract_noun_phrases candidate_text)
  let tfidf := compute_tfidf_similarity target_text candidate_text
    [target_text, candidate_text]
  min 1 (max 0 ((0.6 : ℝ) * (jaccard : ℝ) + (0.4 : ℝ) * tfidf))

/-- `compute_validation_score` (compare.py, lines 362-382):
`0.6 * service + 0.4 * segment`, not clamped further. -/
noncomputable def compute_validation_score (target : NormalizedTarget)
    (candidate : CandidateExtraction) : ℝ :=
  (0.6 : ℝ) * compute_service_similarity target candidate +
    (0.4 : ℝ) * compute_segment_similarity target candidate

/-- Bigrams and trigrams of a lowercased, whitespace-split string
(compare.py, lines 262-267 and 297-301). -/
def pairTerms (s : Str) : List Str :=
  let words := pySplit (lowerStr s)
  ((words.zip words.tail).map (fun p => p.1 ++ ' ' :: p.2)) ++
    ((words.zip (words.tail.zip words.tail.tail)).map
      (fun p => p.1 ++ ' ' :: p.2.1 ++ ' ' :: p.2.2))

/-- `validate_product_overlap` (compare.py, lines 242-275): at least
`min_overlaps` (source default 2) shared terms between the bigrams/trigrams
of the target product bullets and the candidate's extracted activity terms. -/
def validate_product_overlap (target : NormalizedTarget)
    (candidate : CandidateExtraction) (min_overlaps : ℕ) : Bool :=
  let target_terms := (target.target_products_services.flatMap pairTerms).toFinset
  let candidate_terms := extract_noun_phrases candidate.business_activity
  min_overlaps ≤ (target_terms ∩ candidate_terms).card

/-- `validate_segment_overlap` (compare.py, lines 278-309): same with the
customer segments, source default threshold 1. -/
def validate_segment_overlap (target : NormalizedTarget)
    (candidate : CandidateExtraction) (min_overlaps : ℕ) : Bool :=
  let target_terms := (target.target_customer_segments.flatMap pairTerms).toFinset
  let candidate_terms := extract_noun_phrases candidate.customer_segment
  min_overlaps ≤ (target_terms ∩ candidate_terms).card

/-- Python truthiness of an optional string: present and non-empty. -/
def truthyStr : Option Str → Bool
  | none => false
  | some s => !s.isEmpty

/-- `validate_public_listing` (compare.py, lines 312-322):
`bool(candidate.exchange and candidate.ticker)`. -/
def validate_public_listing (candidate : CandidateExtraction) : Bool :=
  truthyStr candidate.exchange && truthyStr candidate.ticker

/-- The fixed "unrelated" keyword list (compare.py, lines 340-343). -/
def unrelated_keywords : List Str :=
  [str "manufacturing", str "hardware vendor", str "pure manufacturer",
    str "equipment supplier", str "physical product"]

/-- The fixed "consulting/services" keyword list (compare.py, line 353). -/
def consulting_keywords : List Str :=
  [str "consulting", str "services", str "advisory", str "managed services",
    str "software"]

/-- Lowercased concatenation of activity and segment text
(compare.py, line 345). -/
def candidate_combined_text (candidate : CandidateExtraction) : Str :=
  lowerStr (candidate.business_activity ++ ' ' :: candidate.customer_segment)

/-- Number of "unrelated" keywords occurring in the combined candidate text
(compare.py, line 348). -/
def unrelated_match_count (candidate : CandidateExtraction) : ℕ :=
  (unrelated_keywords.filter
    (fun kw => strContains (candidate_combined_text candidate) kw)).length

/-- Whether any consulting/services keyword occurs in the combined candidate
text (compare.py, line 354) — note the source tests `candidate_text`, not the
target product text, which it computes but never uses. -/
def has_consulting_overlap (candidate : CandidateExtraction) : Bool :=
  consulting_keywords.any
    (fun kw => strContains (candidate_combined_text candidate) kw)

/-- `validate_not_unrelated` (compare.py, lines 325-359). -/
def validate_not_unrelated (target : NormalizedTarget)
    (candidate : CandidateExtraction) : Bool :=
  if 2 ≤ unrelated_match_count candidate then
    if !(has_consulting_overlap candidate) then false else true
  else true

section AdmissionReal

open Classical

/-- The tiered admission decision of `validate_and_score_candidate`
(pipeline.py, lines 206-233): tier 1 accepts on score ≥ 0.7; tier 2 on
score ≥ 0.5 with a true plausibility verdict; tier 3 on score ≥ `min_score`
with the three automated checks and the plausibility verdict; otherwise
reject.  `public_listing` appears in the source only inside a logging
condition and is carried here as an argument to make that visible. -/
noncomputable def admission_passes (validation_score min_score : ℝ)
    (product_overlap segment_overlap public_listing not_unrelated is_plausible : Bool) :
    Prop :=
  let passes_automated :=
    product_overlap = true ∧ segment_overlap = true ∧ not_unrelated = true
  if (0.7 : ℝ) ≤ validation_score then True
  else if (0.5 : ℝ) ≤ validation_score ∧ is_plausible = true then True
  else if min_score ≤ validation_score then passes_automated ∧ is_plausible = true
  else False

/-- Acceptance of `validate_and_score_candidate` (pipeline.py, lines
170-255), as a predicate on the inputs and the plausibility verdict: the
candidate is turned into a `ComparableCompany` exactly when this holds. -/
noncomputable def validate_and_score_accepts (target : NormalizedTarget)
    (candidate : CandidateExtraction) ( is_plausible : Bool) (min_score : ℝ) :
    Prop :=
  admission_passes (compute_validation_score target candidate) min_score
    (validate_product_overlap target candidate 2)
    (validate_segment_overlap target candidate 1)
    (validate_public_listing candidate)
    (validate_not_unrelated target candidate) is_plausible

end AdmissionReal

/-- `ComparableCompany` (schemas.py). -/
structure ComparableCompany where
  name : Str
  url : Option Str
  exchange : Option Str
  ticker : Option Str
  business_activity : Str
  customer_segment : Str
  sic_industry : Option Str
  validation_score : ℝ
  service_similarity : ℝ
  segment_similarity : ℝ
  is_plausible : Bool
  evidence_urls : List Str

/-- The composite ranking key of `run_pipeline` (pipeline.py, lines
345-352): `(validation_score, len(evidence_urls), bool(sic_industry),
bool(exchange and ticker))`, Python booleans compared as 0/1. -/
def rankKey (c : ComparableCompany) : ℝ × ℕ × ℕ × ℕ :=
  (c.validation_score, c.evidence_urls.length,
    cond (truthyStr c.sic_industry) 1 0,
    cond (truthyStr c.exchange && truthyStr c.ticker) 1 0)

/-- Lexicographic order on the composite key (Python tuple comparison). -/
def keyLE (k k' : ℝ × ℕ × ℕ × ℕ) : Prop :=
  k.1 < k'.1 ∨ (k.1 = k'.1 ∧
    (k.2.1 < k'.2.1 ∨ (k.2.1 = k'.2.1 ∧
      (k.2.2.1 < k'.2.2.1 ∨ (k.2.2.1 = k'.2.2.1 ∧ k.2.2.2 ≤ k'.2.2.2)))))

/-- Descending comparison used by the second, decisive sort of
`run_pipeline` (`reverse=True` over the composite key). -/
def rankGE (a b : ComparableCompany) : Prop := keyLE (rankKey b) (rankKey a)

/-- Descending comparison of the first sort (`key=validation_score`,
`reverse=True`; pipeline.py, line 341). -/
def scoreGE (a b : ComparableCompany) : Prop :=
  b.validation_score ≤ a.validation_score

section RankReal

open Classical

/-- The collection, ranking and truncation phase of `run_pipeline`
(pipeline.py, lines 290-360): each discovered candidate is processed by a
per-candidate stage (fetch + extract + validate, modelled here as an
oracle `process` returning `none` on skip or reject), accepted records are
collected in discovery order, sorted by the two stable descending sorts of
the source, and truncated to `max_final`.  Python's stable `list.sort` is
modelled by `List.insertionSort`, which is also stable. -/
noncomputable def run_pipeline {χ : Type} (process : χ → Option ComparableCompany)
    (candidates : List χ) (max_final : ℕ) : List ComparableCompany :=
  let comparables := candidates.filterMap process
  let sorted1 := comparables.insertionSort scoreGE
  let sorted2 := sorted1.insertionSort rankGE
  sorted2.take max_final

end RankReal

/-- Outcome of `exponential_backoff_retry` (extraction.py, lines 60-111),
together with the sequence of back-off sleeps performed (in seconds).
`success` is a normal return, `raised` a propagated exception with its
message, `exhausted` the `return None` after the loop ends. -/
inductive RetryResult (α : Type) where
  | success (v : α) (waits : List ℚ)
  | raised (msg : Str) (waits : List ℚ)
  | exhausted (waits : List ℚ)
deriving DecidableEq

/-- Quota classification (extraction.py, line 82): the lowercased message
contains a quota keyword. -/
def quota_error (e : Str) : Bool :=
  let es := lowerStr e
  strContains es (str "quota") || strContains es (str "resource exhausted") ||
    strContains es (str "insufficient_quota")

/-- Rate-limit classification (extraction.py, line 100). -/
def rate_limited (e : Str) : Bool :=
  let es := lowerStr e
  strContains es (str "rate limit") || strContains es (str "429") ||
    strContains es (str "too many requests")

/-- Message of the exception raised on quota exhaustion
(extraction.py, line 97). -/
def quota_exception_message : Str :=
  str "OpenAI API quota exceeded. Please check your quota and billing settings."

/-- Loop body of `exponential_backoff_retry` from a given attempt index.
`f n` is the outcome of the wrapped call on attempt `n` (a return value or
the message of the exception it raises).  The loop
`for attempt in range(max_retries)` is driven by the number `remaining` of
iterations left, so `remaining = max_retries - attempt`; `remaining = 0` is
the fall-through `return None` after the loop.  The wall-clock pacing of
`rate_limit_wait` is not modelled; the back-off sleeps are recorded in
order in the `waits` accumulator. -/
def retryAux {α : Type} (f : ℕ → Except Str α) (max_retries : ℕ)
    (base_delay : ℚ) : ℕ → ℕ → List ℚ → RetryResult α
  | 0, _, waits => .exhausted waits
  | remaining + 1, attempt, waits =>
    match f attempt with
    | .ok v => .success v waits
    | .error e =>
      if quota_error e then .raised quota_exception_message waits
      else if rate_limited e then
        retryAux f max_retries base_delay remaining (attempt + 1)
          (waits ++ [base_delay * 2 ^ attempt + 1])
      else if attempt = max_retries - 1 then .raised e waits
      else
        retryAux f max_retries base_delay remaining (attempt + 1)
          (waits ++ [base_delay * 2 ^ attempt])

/-- `exponential_backoff_retry` (extraction.py, lines 60-111). -/
def exponential_backoff_retry {α : Type} (f : ℕ → Except Str α)
    (max_retries : ℕ) (base_delay : ℚ) : RetryResult α :=
  retryAux f max_retries base_delay max_retries 0 []

/-- Source default `max_retries = 5` (extraction.py, line 60). -/
def default_max_retries : ℕ := 5

/-- Source default `base_delay = 2.0` (extraction.py, line 60). -/
def default_base_delay : ℚ := 2

/-- The fallback extraction built when `extract_candidate_fields` catches
any exception (extraction.py, lines 347-359). -/
def minimal_extraction (company_name : Str) (evidence_urls : List Str) :
    CandidateExtraction :=
  { name := company_name
    url := evidence_urls.head?
    exchange := none
    ticker := none
    business_activity := str "Information not available"
    customer_segment := str "Information not available"
    sic_industry := none
    evidence_urls := evidence_urls }

/-- `extract_candidate_fields` (extraction.py, lines 242-359).  The governed
LLM call is the oracle `call`; JSON decoding plus the post-processing of the
parsed dict into a `CandidateExtraction` is the oracle `parse` (any of its
failure modes raises, which the source catches).  The whole body is wrapped
in `try/except`: a retry failure (including the quota exception) or a parse
failure yields the minimal extraction instead of propagating. -/
def extract_candidate_fields {α : Type}
    (parse : α → Except Str CandidateExtraction) (call : ℕ → Except Str α)
    (company_name : Str) (source_urls : List Str) : CandidateExtraction :=
  let evidence_urls := source_urls.take 3
  match exponential_backoff_retry call default_max_retries default_base_delay with
  | .success v _ =>
    match parse v with
    | .ok c => c
    | .error _ => minimal_extraction company_name evidence_urls
  | _ => minimal_extraction company_name evidence_urls

/-- `FailureType` (schemas.py). -/
inductive FailureType where
  | different_products
  | different_segments
  | insufficient_info
  | other
deriving DecidableEq

/-- `ValidationCheck` (schemas.py). -/
structure ValidationCheck where
  is_plausible : Bool
  reason : Str
  failure_type : Option FailureType
deriving DecidableEq

/-- The JSON dict parsed out of the plausibility response, with each field
optional (`result.get`, extraction.py, lines 447-458). -/
structure ParsedValidation where
  is_plausible : Option Bool
  reason : Option Str
  failure_type : Option Str
deriving DecidableEq

/-- `FailureType(failure_type_str)` with the `except ValueError` fallback to
`OTHER` (extraction.py, lines 450-453). -/
def parse_failure_type (s : Str) : FailureType :=
  if s = str "different_products" then .different_products
  else if s = str "different_segments" then .different_segments
  else if s = str "insufficient_info" then .insufficient_info
  else .other

/-- The failsafe verdict returned when the plausibility call fails
(extraction.py, lines 460-467). -/
def failsafe_check : ValidationCheck :=
  { is_plausible := true
    reason := str "Validation check failed, defaulting to plausible"
    failure_type := none }

/-- `validate_candidate` (extraction.py, lines 362-467): governed call,
JSON parse, field defaulting; any failure is caught and replaced by the
failsafe verdict. -/
def validate_candidate {α : Type} (parse : α → Except Str ParsedValidation)
    (call : ℕ → Except Str α) : ValidationCheck :=
  match exponential_backoff_retry call default_max_retries default_base_delay with
  | .success v _ =>
    match parse v with
    | .ok r =>
      let ft := match r.failure_type with
        | none => none
        | some s => if s = [] then none else some (parse_failure_type s)
      { is_plausible := (ParsedValidation.is_plausible r).getD false
        reason := r.reason.getD (str "No reason provided")
        failure_type := ft }
    | .error _ => failsafe_check
  | _ => failsafe_check

/-- Section keywords of `extract_company_info` (retrieval.py, lines 94-107). -/
def overview_keywords : List Str :=
  [str "about us", str "overview", str "company", str "who we are",
    str "mission", str "description", str "introduction"]

/-- Product keywords (retrieval.py). -/
def product_keywords : List Str :=
  [str "products", str "services", str "solutions", str "offerings",
    str "what we do", str "capabilities", str "portfolio"]

/-- Customer keywords (retrieval.py). -/
def customer_keywords : List Str :=
  [str "customers", str "clients", str "industries", str "sectors",
    str "markets", str "verticals", str "who we serve"]

/-- Python `text.split('\n\n')`. -/
def splitOnDoubleNewline : Str → List Str
  | [] => [[]]
  | '\n' :: '\n' :: rest => [] :: splitOnDoubleNewline rest
  | c :: rest =>
    match splitOnDoubleNewline rest with
    | [] => [[c]]
    | p :: ps => (c :: p) :: ps

/-- Python `s.strip()`. -/
def pyStrip (s : Str) : Str :=
  ((s.dropWhile Char.isWhitespace).reverse.dropWhile Char.isWhitespace).reverse

/-- `extract_company_info` (retrieval.py, lines 79-125): keep stripped
paragraphs longer than 50 characters; of these, keep the first 2000
characters of each paragraph that mentions a section keyword and is longer
than 100 characters; if none qualifies, fall back to the first five
paragraphs.  The second component of the result is always empty. -/
def extract_company_info (text : Str) (url : Str) : List Str × List Str :=
  if text = [] then ([], [])
  else
    let paragraphs :=
      ((splitOnDoubleNewline text).map pyStrip).filter (fun p => 50 < p.length)
    let kws := overview_keywords ++ product_keywords ++ customer_keywords
    let snippets := paragraphs.filterMap (fun para =>
      if kws.any (fun kw => strContains (lowerStr para) kw) then
        (if 100 < para.length then some (para.take 2000) else none)
      else none)
    let snippets :=
      if snippets = [] ∧ paragraphs ≠ [] then paragraphs.take 5 else snippets
    (snippets, [])

/-- Wikipedia URL stem (retrieval.py, line 367). -/
def wiki_base : Str := str "https://en.wikipedia.org/wiki/"

/-- Python `company_name.replace(' ', '_')`. -/
def replaceSpaceUnderscore (s : Str) : Str :=
  s.map (fun c => if c = ' ' then '_' else c)

/-- Company-name suffixes tried for the alternative Wikipedia lookup
(retrieval.py, line 376). -/
def company_suffixes : List Str :=
  [str " Inc", str " Corporation", str " Corp", str " LLC", str " Ltd"]

/-- The suffix-stripping retry loop of the Wikipedia lookup (retrieval.py,
lines 376-384): for the first matching suffix whose stripped name fetches a
page longer than 200 characters, return that snippet and stop. -/
def wiki_alt_lookup (fetch : Str → Option Str) (company_name : Str) :
    List Str → List Str × List Str
  | [] => ([], [])
  | sfx :: rest =>
    if sfx.isSuffixOf company_name then
      let alt_url := wiki_base ++
        replaceSpaceUnderscore (company_name.take (company_name.length - sfx.length))
      match fetch alt_url with
      | some t =>
        if 200 < t.length then ([t.take 4000], [alt_url])
        else wiki_alt_lookup fetch company_name rest
      | none => wiki_alt_lookup fetch company_name rest
    else wiki_alt_lookup fetch company_name rest

/-- The Wikipedia stage of `fetch_candidate_data` (retrieval.py, lines
364-386).  `fetch` is the page-fetch oracle (`fetch_page`): `none` models
both a failed fetch and a raised exception. -/
def wiki_snippets (fetch : Str → Option Str) (company_name : Str) :
    List Str × List Str :=
  let wiki_url := wiki_base ++ replaceSpaceUnderscore company_name
  match fetch wiki_url with
  | some t =>
    if 200 < t.length then ([t.take 4000], [wiki_url])
    else wiki_alt_lookup fetch company_name company_suffixes
  | none => wiki_alt_lookup fetch company_name company_suffixes

/-- The company-website stage of `fetch_candidate_data` (retrieval.py,
lines 352-361): only substantial pages (length > 100) with a non-empty
overview contribute. -/
def website_snippets (fetch : Str → Option Str) (url : Option Str) :
    List Str × List Str :=
  match url with
  | none => ([], [])
  | some u =>
    match fetch u with
    | none => ([], [])
    | some text =>
      if 100 < text.length then
        (let ov := (extract_company_info text u).1
         if ov ≠ [] then (ov, [u]) else ([], []))
      else ([], [])

/-- Snippets and source URLs accumulated by the two real stages of
`fetch_candidate_data`, before the placeholder fallback. -/
def raw_candidate_data (fetch : Str → Option Str) (company_name : Str)
    (url : Option Str) : List Str × List Str :=
  let web := website_snippets fetch url
  let wiki := wiki_snippets fetch company_name
  (web.1 ++ wiki.1, web.2 ++ wiki.2)

/-- The synthesized snippet (retrieval.py, line 391). -/
def placeholder_snippet (company_name : Str) : Str :=
  str "Company: " ++ company_name ++ str ". Information about " ++
    company_name ++ str "."

/-- `fetch_candidate_data` (retrieval.py, lines 334-395). -/
def fetch_candidate_data (fetch : Str → Option Str) (company_name : Str)
    (url : Option Str) : List Str × List Str :=
  let rawd := raw_candidate_data fetch company_name url
  if rawd.1 = [] then
    ([placeholder_snippet company_name],
      rawd.2 ++ (match url with | some u => [u] | none => []))
  else rawd

/-- Concrete target for the C5 witness. -/
def w5_target : NormalizedTarget :=
  { target_products_services := [str "word word"]
    target_customer_segments := []
    canonical_sic_names := []
    keywords := [] }

/-- Concrete candidate for the C5 witness, identical text. -/
def w5_candidate : CandidateExtraction :=
  { name := str "W"
    url := none
    exchange := none
    ticker := none
    business_activity := str "word word"
    customer_segment := str ""
    sic_industry := none
    evidence_urls := [] }

/-- Concrete target for the C5 counterexample. -/
def c5_target : NormalizedTarget :=
  { target_products_services := [str "ab"]
    target_customer_segments := []
    canonical_sic_names := []
    keywords := [] }

/-- Concrete candidate for the C5 counterexample. -/
def c5_candidate : CandidateExtraction :=
  { name := str "T"
    url := none
    exchange := none
    ticker := none
    business_activity := str "ab"
    customer_segment := str ""
    sic_industry := none
    evidence_urls := [] }

/-- Concrete target for the C6 counterexample. -/
def c6_target : NormalizedTarget :=
  { target_products_services := [str "banking"]
    target_customer_segments := []
    canonical_sic_names := []
    keywords := [] }

/-- Concrete candidate for the C6 counterexample. -/
def c6_candidate : CandidateExtraction :=
  { name := str "U"
    url := none
    exchange := none
    ticker := none
    business_activity := str "manufacturing hardware vendor software"
    customer_segment := str ""
    sic_industry := none
    evidence_urls := [] }

/-- Concrete wrapped call raising a quota error on every attempt. -/
def c2_call : ℕ → Except Str ℕ := fun _ => Except.error (str "insufficient_quota")

/-- Concrete parse stub for the C2 counterexample. -/
def c2_parse : ℕ → Except Str CandidateExtraction := fun _ => Except.error []

/-- Concrete wrapped call: rate-limited with a suggested wait on attempt 0,
then success. -/
def c3_call : ℕ → Except Str ℕ := fun n =>
  if n = 0 then Except.error (str "rate limit exceeded. please retry after 30 seconds")
  else Except.ok 0

/-- Concrete quota-erroring call for the C2 witness. -/
def w2_call : ℕ → Except Str ℕ := fun _ => Except.error (str "quota")

/-- Concrete parse stub for the C2 witness. -/
def w2_parse : ℕ → Except Str CandidateExtraction := fun _ => Except.error []

/-- Concrete generic-erroring call for the C3 witness. -/
def w3_call : ℕ → Except Str ℕ := fun _ => Except.error (str "boom")

/-- Concrete generic-erroring call for the C9 witness. -/
def w9_call : ℕ → Except Str ℕ := fun _ => Except.error (str "boom")

/-- Concrete parse stub for the C9 witness. -/
def w9_parse : ℕ → Except Str ParsedValidation := fun _ => Except.error []

/-- Claim C1: for every normalized target, extracted candidate, plausibility
verdict and configured minimum threshold, `validate_and_score_candidate`
accepts exactly when score >= 0.70, or score >= 0.50 with a true verdict, or
score >= min_score with product-overlap, segment-overlap, not-unrelated and
a true verdict; and the public-listing check never affects the outcome. -/
theorem C1_admission_policy (target : NormalizedTarget) (candidate : CandidateExtraction)
    ( is_plausible : Bool) (min_score : ℝ) :
    (validate_and_score_accepts target candidate is_plausible min_score ↔
      ((0.7 : ℝ) ≤ compute_validation_score target candidate ∨
        ((0.5 : ℝ) ≤ compute_validation_score target candidate ∧ is_plausible = true) ∨
        (min_score ≤ compute_validation_score target candidate ∧
          validate_product_overlap target candidate 2 = true ∧
          validate_segment_overlap target candidate 1 = true ∧
          validate_not_unrelated target candidate = true ∧
          is_plausible = true))) ∧
    (∀ (score m : ℝ) (po so nu pl pub1 pub2 : Bool),
      admission_passes score m po so pub1 nu pl ↔
        admission_passes score m po so pub2 nu pl) := by
  constructor
  · unfold validate_and_score_accepts admission_passes
    split_ifs with h1 h2 h3 <;> tauto
  · intro score m po so nu pl pub1 pub2
    rfl

lemma retryAux_ok {α : Type} (f : ℕ → Except Str α) (m : ℕ) (b : ℚ)
    (r a : ℕ) (w : List ℚ) (v : α) (h : f a = .ok v) :
    retryAux f m b (r + 1) a w = .success v w := by
  unfold retryAux
  rw [h]

lemma retryAux_quota {α : Type} (f : ℕ → Except Str α) (m : ℕ) (b : ℚ)
    (r a : ℕ) (w : List ℚ) (e : Str) (h : f a = .error e)
    (hq : quota_error e = true) :
    retryAux f m b (r + 1) a w = .raised quota_exception_message w := by
  unfold retryAux
  rw [h]
  simp [hq]

lemma retryAux_rate {α : Type} (f : ℕ → Except Str α) (m : ℕ) (b : ℚ)
    (r a : ℕ) (w : List ℚ) (e : Str) (h : f a = .error e)
    (hq : quota_error e = false) (hr : rate_limited e = true) :
    retryAux f m b (r + 1) a w = retryAux f m b r (a + 1) (w ++ [b * 2 ^ a + 1]) := by
  conv_lhs => unfold retryAux
  rw [h]
  simp [hq, hr]

lemma retryAux_last {α : Type} (f : ℕ → Except Str α) (m : ℕ) (b : ℚ)
    (r a : ℕ) (w : List ℚ) (e : Str) (h : f a = .error e)
    (hq : quota_error e = false) (hr : rate_limited e = false) (ha : a = m - 1) :
    retryAux f m b (r + 1) a w = .raised e w := by
  unfold retryAux
  rw [h]
  simp [hq, hr, ha]

lemma retryAux_other {α : Type} (f : ℕ → Except Str α) (m : ℕ) (b : ℚ)
    (r a : ℕ) (w : List ℚ) (e : Str) (h : f a = .error e)
    (hq : quota_error e = false) (hr : rate_limited e = false) (ha : a ≠ m - 1) :
    retryAux f m b (r + 1) a w = retryAux f m b r (a + 1) (w ++ [b * 2 ^ a]) := by
  conv_lhs => unfold retryAux
  rw [h]
  simp [hq, hr, ha]

/-- Claim C2, counterexample to the claim as stated: a quota-exhausted error
is raised immediately by the retry wrapper, but `extract_candidate_fields`
catches it and returns the minimal extraction, so the run is NOT aborted —
processing continues with the remaining candidates. -/
theorem C2_counterexample :
    exponential_backoff_retry c2_call default_max_retries default_base_delay =
      RetryResult.raised quota_exception_message [] ∧
    extract_candidate_fields c2_parse c2_call (str "Acme") [str "u1"] =
      minimal_extraction (str "Acme") [str "u1"] := by
  have hretry : exponential_backoff_retry c2_call default_max_retries default_base_delay =
      RetryResult.raised quota_exception_message [] :=
    retryAux_quota c2_call default_max_retries default_base_delay 4 0 [] _ rfl (by decide)
  refine ⟨hretry, ?_⟩
  unfold extract_candidate_fields
  rw [hretry]
  rfl

/-- Claim C2 (amended): a quota-keyword error on attempt 1 causes no further
attempts — `exponential_backoff_retry` raises the distinguishable quota
exception at once, with no back-off sleeps, and the result does not depend
on the behaviour of the wrapped call at attempts 2-5; however the caller
`extract_candidate_fields` catches the exception and returns a minimal
extraction, so the run continues. -/
theorem C2_quota_never_retried (α : Type) (parse : α → Except Str CandidateExtraction)
    (call : ℕ → Except Str α) (company_name : Str) (source_urls : List Str) (e : Str)
    (h : call 0 = Except.error e) (hq : quota_error e = true) :
    exponential_backoff_retry call default_max_retries default_base_delay =
      RetryResult.raised quota_exception_message [] ∧
    (∀ call2 : ℕ → Except Str α, call2 0 = call 0 →
      exponential_backoff_retry call2 default_max_retries default_base_delay =
        exponential_backoff_retry call default_max_retries default_base_delay) ∧
    extract_candidate_fields parse call company_name source_urls =
      minimal_extraction company_name (source_urls.take 3) := by
  have h1 : exponential_backoff_retry call default_max_retries default_base_delay =
      RetryResult.raised quota_exception_message [] :=
    retryAux_quota call default_max_retries default_base_delay 4 0 [] e h hq
  refine ⟨h1, ?_, ?_⟩
  · intro call2 h2
    rw [h1]
    exact retryAux_quota call2 _ _ 4 0 [] e (h2.trans h) hq
  · unfold extract_candidate_fields
    rw [h1]

/-- Witness for C2 at a concrete quota error. -/
theorem C2_witness :
    w2_call 0 = Except.error (str "quota") ∧ quota_error (str "quota") = true ∧
    (exponential_backoff_retry w2_call default_max_retries default_base_delay =
      RetryResult.raised quota_exception_message [] ∧
    (∀ call2 : ℕ → Except Str ℕ, call2 0 = w2_call 0 →
      exponential_backoff_retry call2 default_max_retries default_base_delay =
        exponential_backoff_retry w2_call default_max_retries default_base_delay) ∧
    extract_candidate_fields w2_parse w2_call (str "B") [] =
      minimal_extraction (str "B") (List.take 3 [])) :=
  ⟨rfl, by decide,
    C2_quota_never_retried ℕ w2_parse w2_call (str "B") [] (str "quota") rfl (by decide)⟩

/-- Claim C3, counterexample to the claim as stated: a rate-limited error
whose message suggests waiting 30 seconds is retried after
`base_delay * 2 ^ 0 + 1 = 3` seconds — the suggested wait time is never
parsed. -/
theorem C3_counterexample :
    rate_limited (str "rate limit exceeded. please retry after 30 seconds") = true ∧
    exponential_backoff_retry c3_call default_max_retries default_base_delay =
      RetryResult.success 0 [3] ∧
    (3 : ℚ) ≠ 30 := by
  refine ⟨by decide, ?_, by norm_num⟩
  have h1 : exponential_backoff_retry c3_call default_max_retries default_base_delay =
      retryAux c3_call default_max_retries default_base_delay 4 1
        ([] ++ [default_base_delay * 2 ^ 0 + 1]) :=
    retryAux_rate c3_call default_max_retries default_base_delay 4 0 [] _ rfl
      (by decide) (by decide)
  have h2 : retryAux c3_call default_max_retries default_base_delay 4 1
      ([] ++ [default_base_delay * 2 ^ 0 + 1]) =
      RetryResult.success 0 ([] ++ [default_base_delay * 2 ^ 0 + 1]) :=
    retryAux_ok c3_call default_max_retries default_base_delay 3 1 _ 0 rfl
  rw [h1, h2]
  norm_num [default_base_delay]

/-- Claim C3 (amended): classification order of the retry loop for a
non-quota error: a rate-limited message sleeps `base_delay * 2 ^ attempt + 1`
(no suggested wait time is parsed) and retries; otherwise at
`attempt = max_retries - 1` the error propagates; otherwise the loop sleeps
`base_delay * 2 ^ attempt` and retries.  `max_retries` defaults to 5. -/
theorem C3_backoff_classification (α : Type) (f : ℕ → Except Str α) (m : ℕ) (b : ℚ)
    (r a : ℕ) (w : List ℚ) (e : Str)
    (hf : f a = Except.error e) (hq : quota_error e = false) :
    (rate_limited e = true →
      retryAux f m b (r + 1) a w = retryAux f m b r (a + 1) (w ++ [b * 2 ^ a + 1])) ∧
    (rate_limited e = false → a = m - 1 →
      retryAux f m b (r + 1) a w = RetryResult.raised e w) ∧
    (rate_limited e = false → a ≠ m - 1 →
      retryAux f m b (r + 1) a w = retryAux f m b r (a + 1) (w ++ [b * 2 ^ a])) ∧
    exponential_backoff_retry f m b = retryAux f m b m 0 [] ∧
    default_max_retries = 5 :=
  ⟨fun hr => retryAux_rate f m b r a w e hf hq hr,
    fun hr ha => retryAux_last f m b r a w e hf hq hr ha,
    fun hr ha => retryAux_other f m b r a w e hf hq hr ha, rfl, rfl⟩

/-- Witness for C3 at a concrete generic error on attempt 1 of 5. -/
theorem C3_witness :
    w3_call 1 = Except.error (str "boom") ∧ quota_error (str "boom") = false ∧
    ((rate_limited (str "boom") = true →
      retryAux w3_call 5 2 (3 + 1) 1 [] =
        retryAux w3_call 5 2 3 (1 + 1) ([] ++ [2 * 2 ^ 1 + 1])) ∧
    (rate_limited (str "boom") = false → 1 = 5 - 1 →
      retryAux w3_call 5 2 (3 + 1) 1 [] = RetryResult.raised (str "boom") []) ∧
    (rate_limited (str "boom") = false → 1 ≠ 5 - 1 →
      retryAux w3_call 5 2 (3 + 1) 1 [] =
        retryAux w3_call 5 2 3 (1 + 1) ([] ++ [2 * 2 ^ 1])) ∧
    exponential_backoff_retry w3_call 5 2 = retryAux w3_call 5 2 5 0 [] ∧
    default_max_retries = 5) :=
  ⟨rfl, by decide,
    C3_backoff_classification ℕ w3_call 5 2 3 1 [] (str "boom") rfl (by decide)⟩

/-- Claim C4, counterexample to the claim as stated: `extract_noun_phrases`
applied to the single word "word" is not empty — the unigram filter drops
only words of three characters or fewer, and "word" has four. -/
theorem C4_counterexample : extract_noun_phrases (str "word") ≠ ∅ := by decide

/-- Claim C4 (amended): the empty string yields the empty term set; the
single word "word" yields the singleton term set containing "word"; a
genuinely short word such as "the" is filtered and yields the empty set. -/
theorem C4_extract_terms :
    extract_noun_phrases (str "") = ∅ ∧
    extract_noun_phrases (str "word") = {str "word"} ∧
    extract_noun_phrases (str "the") = ∅ :=
  ⟨by decide, by decide, by decide⟩

lemma jaccard_self (S : Finset Str) (h : S ≠ ∅) : jaccard_similarity S S = 1 := by
  unfold jaccard_similarity
  have hc : (S.card : ℚ) ≠ 0 := by
    simpa [Finset.card_eq_zero] using h
  simp [h, Finset.inter_self, Finset.union_self, Finset.card_eq_zero, div_self hc]

lemma tfidf_self (A : Str) (docs : List Str)
    (hterms : extract_noun_phrases A ≠ ∅)
    (hnorm : tfidfNormSq A docs (extract_noun_phrases A) ≠ 0) :
    compute_tfidf_similarity A A docs = 1 := by
  have hA : A ≠ [] := fun h => hterms (h ▸ rfl)
  have hsum_nonneg : 0 ≤ tfidfNormSq A docs (extract_noun_phrases A) :=
    Finset.sum_nonneg fun t _ => mul_self_nonneg _
  have hsqrt : Real.sqrt (tfidfNormSq A docs (extract_noun_phrases A)) ≠ 0 := by
    rw [Ne, Real.sqrt_eq_zero']
    push_neg
    exact lt_of_le_of_ne hsum_nonneg (Ne.symm hnorm)
  unfold compute_tfidf_similarity
  simp only [hA, or_self, if_false, Finset.union_self, if_neg, hterms]
  have hd : ((extract_noun_phrases A).sum
      (fun t => tfidfEntry A docs t * tfidfEntry A docs t)) =
      tfidfNormSq A docs (extract_noun_phrases A) := rfl
  rw [hd, Real.mul_self_sqrt hsum_nonneg, div_self hnorm, if_neg hsqrt]

/-- Claim C5 (amended): comparing a target products text with an identical
candidate business-activity text yields blended service similarity exactly 1,
provided the extracted term set is non-empty and the squared TF-IDF norm of
the shared text is non-zero (Jaccard = 1 and TF-IDF cosine = 1). -/
theorem C5_self_similarity (target : NormalizedTarget) (candidate : CandidateExtraction)
    (hact : candidate.business_activity = joinSpace target.target_products_services)
    (hterms : extract_noun_phrases (joinSpace target.target_products_services) ≠ ∅)
    (hnorm : tfidfNormSq (joinSpace target.target_products_services)
        [joinSpace target.target_products_services,
          joinSpace target.target_products_services]
        (extract_noun_phrases (joinSpace target.target_products_services)) ≠ 0) :
    compute_service_similarity target candidate = 1 := by
  unfold compute_service_similarity
  dsimp only
  rw [hact, jaccard_self _ hterms, tfidf_self _ _ hterms hnorm]
  push_cast
  norm_num

/-- Witness for C5: the one-bullet target "word word" compared with itself. -/
theorem C5_witness :
    extract_noun_phrases (joinSpace w5_target.target_products_services) ≠ ∅ ∧
    tfidfNormSq (joinSpace w5_target.target_products_services)
      [joinSpace w5_target.target_products_services,
        joinSpace w5_target.target_products_services]
      (extract_noun_phrases (joinSpace w5_target.target_products_services)) ≠ 0 ∧
    compute_service_similarity w5_target w5_candidate = 1 := by
  have hA : joinSpace w5_target.target_products_services = str "word word" := by decide
  have hterms : extract_noun_phrases (joinSpace w5_target.target_products_services) ≠ ∅ := by
    decide
  have hS : extract_noun_phrases (str "word word") =
      {str "word", str "word word"} := by decide
  have heU : tfidfEntry (str "word word") [str "word word", str "word word"]
      (str "word") = 2 * Real.log (4 / 3) := by
    have h1 : termCount (str "word word") (str "word") = 2 := by decide
    have h2 : docCount [str "word word", str "word word"] (str "word") = 2 := by decide
    unfold tfidfEntry idfVal
    rw [h1, h2]
    norm_num
  have heB : tfidfEntry (str "word word") [str "word word", str "word word"]
      (str "word word") = 0 := by
    have h1 : termCount (str "word word") (str "word word") = 0 := by decide
    unfold tfidfEntry
    rw [h1]
    norm_num
  have hnorm : tfidfNormSq (joinSpace w5_target.target_products_services)
      [joinSpace w5_target.target_products_services,
        joinSpace w5_target.target_products_services]
      (extract_noun_phrases (joinSpace w5_target.target_products_services)) ≠ 0 := by
    rw [hA, hS]
    unfold tfidfNormSq
    rw [Finset.sum_insert (by decide), Finset.sum_singleton, heU, heB]
    have hl : 0 < Real.log (4 / 3) := Real.log_pos (by norm_num)
    nlinarith
  exact ⟨hterms, hnorm, C5_self_similarity w5_target w5_candidate (by decide) hterms hnorm⟩

/-- Claim C5, counterexample to the claim as stated: the non-empty text
"ab" compared with itself scores 0, not 1 — its only word is filtered by
the length-3 unigram cutoff, so both blend components are 0. -/
theorem C5_counterexample :
    str "ab" ≠ [] ∧ compute_service_similarity c5_target c5_candidate = 0 := by
  refine ⟨by decide, ?_⟩
  have hE : extract_noun_phrases (str "ab") = ∅ := by decide
  have htf : compute_tfidf_similarity (str "ab") (str "ab") [str "ab", str "ab"] = 0 := by
    unfold compute_tfidf_similarity
    simp [hE]
  unfold compute_service_similarity
  simp only [c5_target, c5_candidate]
  rw [show joinSpace [str "ab"] = str "ab" from by decide, hE, htf]
  simp [jaccard_similarity]

/-- Claim C6 (amended): `validate_not_unrelated` rejects exactly when the
candidate's combined activity/segment text matches at least two "unrelated"
keywords and that same candidate text contains none of the
consulting/services keywords.  The target's product text is not consulted. -/
theorem C6_characterization (target : NormalizedTarget) (candidate : CandidateExtraction) :
    validate_not_unrelated target candidate = false ↔
      (2 ≤ unrelated_match_count candidate ∧ has_consulting_overlap candidate = false) := by
  unfold validate_not_unrelated
  split_ifs with h1 h2 <;> simp_all

/-- Claim C6, counterexample to the claim as stated: a candidate matching
two "unrelated" keywords that shares no consulting keyword with the
target's product text ("banking") still passes, because the source checks
the consulting keywords against the candidate's own text (here "software"
occurs in the candidate text). -/
theorem C6_counterexample :
    validate_not_unrelated c6_target c6_candidate = true ∧
    2 ≤ unrelated_match_count c6_candidate ∧
    consulting_keywords.all
      (fun kw => !(strContains
        (lowerStr (joinSpace c6_target.target_products_services)) kw)) = true := by
  refine ⟨by decide, by decide, by decide⟩

lemma keyLE_total (k k' : ℝ × ℕ × ℕ × ℕ) : keyLE k k' ∨ keyLE k' k := by
  unfold keyLE
  rcases lt_trichotomy k.1 k'.1 with h1 | h1 | h1
  · exact Or.inl (Or.inl h1)
  · rcases lt_trichotomy k.2.1 k'.2.1 with h2 | h2 | h2
    · exact Or.inl (Or.inr ⟨h1, Or.inl h2⟩)
    · rcases lt_trichotomy k.2.2.1 k'.2.2.1 with h3 | h3 | h3
      · exact Or.inl (Or.inr ⟨h1, Or.inr ⟨h2, Or.inl h3⟩⟩)
      · rcases le_total k.2.2.2 k'.2.2.2 with h4 | h4
        · exact Or.inl (Or.inr ⟨h1, Or.inr ⟨h2, Or.inr ⟨h3, h4⟩⟩⟩)
        · exact Or.inr (Or.inr ⟨h1.symm, Or.inr ⟨h2.symm, Or.inr ⟨h3.symm, h4⟩⟩⟩)
      · exact Or.inr (Or.inr ⟨h1.symm, Or.inr ⟨h2.symm, Or.inl h3⟩⟩)
    · exact Or.inr (Or.inr ⟨h1.symm, Or.inl h2⟩)
  · exact Or.inr (Or.inl h1)

lemma keyLE_trans (k1 k2 k3 : ℝ × ℕ × ℕ × ℕ) :
    keyLE k1 k2 → keyLE k2 k3 → keyLE k1 k3 := by
  unfold keyLE
  intro h1 h2
  rcases h1 with h1 | ⟨e1, h1⟩ <;> rcases h2 with h2 | ⟨e2, h2⟩
  · exact Or.inl (lt_trans h1 h2)
  · exact Or.inl (e2 ▸ h1)
  · exact Or.inl (lt_of_le_of_lt (le_of_eq e1) h2)
  · exact Or.inr ⟨e1.trans e2, by omega⟩

instance : IsTotal ComparableCompany rankGE :=
  ⟨fun a b => keyLE_total (rankKey b) (rankKey a)⟩

instance : IsTrans ComparableCompany rankGE :=
  ⟨fun a b c h1 h2 => keyLE_trans _ _ _ h2 h1⟩

lemma rankGE_consequence {a b : ComparableCompany} (h : rankGE a b) :
    b.validation_score < a.validation_score ∨
      (b.validation_score = a.validation_score ∧
        b.evidence_urls.length ≤ a.evidence_urls.length) := by
  unfold rankGE keyLE at h
  rcases h with h | ⟨e, h⟩
  · exact Or.inl h
  · refine Or.inr ⟨e, ?_⟩
    rcases h with h | ⟨f, h⟩
    · exact le_of_lt h
    · exact le_of_eq f

section C7Real

open Classical

/-- Claim C7: the pipeline output is the accepted records sorted descending
by the composite key (validation score, evidence-URL count, presence of a
SIC industry, presence of exchange and ticker) and truncated to `max_final`;
in particular, records with equal score are ordered with the larger
evidence-URL count first (the Pairwise conjunct). -/
theorem C7_ranking (χ : Type) (process : χ → Option ComparableCompany)
    (candidates : List χ) (max_final : ℕ) :
    (run_pipeline process candidates max_final).length ≤ max_final ∧
    (∃ ranked : List ComparableCompany,
      ranked.Perm (candidates.filterMap process) ∧
      ranked.Sorted rankGE ∧
      run_pipeline process candidates max_final = ranked.take max_final) ∧
    (run_pipeline process candidates max_final).Pairwise (fun a b =>
      b.validation_score < a.validation_score ∨
        (b.validation_score = a.validation_score ∧
          b.evidence_urls.length ≤ a.evidence_urls.length)) := by
  refine ⟨?_,
    ⟨List.insertionSort rankGE
        (List.insertionSort scoreGE (candidates.filterMap process)), ?_, ?_, rfl⟩, ?_⟩
  · exact List.length_take_le _ _
  · exact (List.perm_insertionSort _ _).trans (List.perm_insertionSort _ _)
  · exact List.sorted_insertionSort _ _
  · have hs : (List.insertionSort rankGE
        (List.insertionSort scoreGE (candidates.filterMap process))).Sorted rankGE :=
      List.sorted_insertionSort _ _
    have hsub : (run_pipeline process candidates max_final).Sublist
        (List.insertionSort rankGE
          (List.insertionSort scoreGE (candidates.filterMap process))) :=
      List.take_sublist _ _
    exact (List.Pairwise.sublist hsub hs).imp fun h => rankGE_consequence h

end C7Real

lemma clamp01_mem (x : ℝ) : 0 ≤ min 1 (max 0 x) ∧ min 1 (max 0 x) ≤ 1 :=
  ⟨le_min (by norm_num) (le_max_left 0 x), min_le_left _ _⟩

lemma service_range (t : NormalizedTarget) (c : CandidateExtraction) :
    0 ≤ compute_service_similarity t c ∧ compute_service_similarity t c ≤ 1 := by
  unfold compute_service_similarity
  exact clamp01_mem _

lemma segment_range (t : NormalizedTarget) (c : CandidateExtraction) :
    0 ≤ compute_segment_similarity t c ∧ compute_segment_similarity t c ≤ 1 := by
  unfold compute_segment_similarity
  exact clamp01_mem _

/-- Claim C8: the two blended similarity scores and the combined validation
score always lie in [0, 1]; the embedded functions are total, so no input
(empty or punctuation-only texts included) raises an error. -/
theorem C8_score_ranges (t : NormalizedTarget) (c : CandidateExtraction) :
    0 ≤ compute_service_similarity t c ∧ compute_service_similarity t c ≤ 1 ∧
    0 ≤ compute_segment_similarity t c ∧ compute_segment_similarity t c ≤ 1 ∧
    0 ≤ compute_validation_score t c ∧ compute_validation_score t c ≤ 1 := by
  obtain ⟨h1, h2⟩ := service_range t c
  obtain ⟨h3, h4⟩ := segment_range t c
  refine ⟨h1, h2, h3, h4, ?_, ?_⟩ <;> unfold compute_validation_score <;> nlinarith

/-- Claim C9: whenever the governed plausibility call fails — the retry
wrapper raises or exhausts its attempts, or the response cannot be parsed —
`validate_candidate` returns the failsafe verdict with `is_plausible = true`
and no failure kind. -/
theorem C9_plausibility_failsafe (α : Type) (parse : α → Except Str ParsedValidation)
    (call : ℕ → Except Str α)
    (hfail :
      (∃ msg w, exponential_backoff_retry call default_max_retries default_base_delay =
          RetryResult.raised msg w) ∨
      (∃ w, exponential_backoff_retry call default_max_retries default_base_delay =
          RetryResult.exhausted w) ∨
      (∃ v w err, exponential_backoff_retry call default_max_retries default_base_delay =
          RetryResult.success v w ∧ parse v = Except.error err)) :
    validate_candidate parse call = failsafe_check ∧
    ValidationCheck.is_plausible (validate_candidate parse call) = true ∧
    (validate_candidate parse call).failure_type = none := by
  have hv : validate_candidate parse call = failsafe_check := by
    unfold validate_candidate
    rcases hfail with ⟨msg, w, h⟩ | ⟨w, h⟩ | ⟨v, w, err, h1, h2⟩
    · rw [h]
    · rw [h]
    · rw [h1]
      simp [h2]
  refine ⟨hv, ?_, ?_⟩ <;> rw [hv] <;> rfl

/-- Witness for C9: a call that fails all five attempts. -/
theorem C9_witness :
    validate_candidate w9_parse w9_call = failsafe_check ∧
    ValidationCheck.is_plausible (validate_candidate w9_parse w9_call) = true ∧
    (validate_candidate w9_parse w9_call).failure_type = none := by
  have t0 : exponential_backoff_retry w9_call default_max_retries default_base_delay =
      retryAux w9_call default_max_retries default_base_delay 4 1
        ([] ++ [default_base_delay * 2 ^ 0]) :=
    retryAux_other w9_call default_max_retries default_base_delay 4 0 [] (str "boom")
      rfl (by decide) (by decide) (by decide)
  have t1 := retryAux_other w9_call default_max_retries default_base_delay 3 1
    ([] ++ [default_base_delay * 2 ^ 0]) (str "boom") rfl (by decide) (by decide) (by decide)
  have t2 := retryAux_other w9_call default_max_retries default_base_delay 2 2
    ([] ++ [default_base_delay * 2 ^ 0] ++ [default_base_delay * 2 ^ 1]) (str "boom")
    rfl (by decide) (by decide) (by decide)
  have t3 := retryAux_other w9_call default_max_retries default_base_delay 1 3
    ([] ++ [default_base_delay * 2 ^ 0] ++ [default_base_delay * 2 ^ 1] ++
      [default_base_delay * 2 ^ 2]) (str "boom") rfl (by decide) (by decide) (by decide)
  have t4 := retryAux_last w9_call default_max_retries default_base_delay 0 4
    ([] ++ [default_base_delay * 2 ^ 0] ++ [default_base_delay * 2 ^ 1] ++
      [default_base_delay * 2 ^ 2] ++ [default_base_delay * 2 ^ 3]) (str "boom")
    rfl (by decide) (by decide) (by decide)
  exact C9_plausibility_failsafe ℕ w9_parse w9_call
    (Or.inl ⟨str "boom", _, t0.trans (t1.trans (t2.trans (t3.trans t4)))⟩)

/-- Claim C10: `fetch_candidate_data` always returns at least one snippet,
whatever the fetch oracle does; when the two real stages produce nothing it
synthesizes the placeholder snippet from the company name. -/
theorem C10_fetch_nonempty (fetch : Str → Option Str) (company_name : Str)
    (url : Option Str) :
    1 ≤ (fetch_candidate_data fetch company_name url).1.length ∧
    ((raw_candidate_data fetch company_name url).1 = [] →
      (fetch_candidate_data fetch company_name url).1 =
        [placeholder_snippet company_name]) := by
  unfold fetch_candidate_data
  constructor
  · by_cases h : (raw_candidate_data fetch company_name url).1 = []
    · simp [h]
    · simp only [h, if_false]
      exact List.length_pos.mpr h
  · intro h
    simp [h]

/-- Witness for C10: an oracle whose every fetch fails. -/
theorem C10_witness :
    (raw_candidate_data (fun _ => none) (str "X") none).1 = [] ∧
    1 ≤ (fetch_candidate_data (fun _ => none) (str "X") none).1.length ∧
    (fetch_candidate_data (fun _ => none) (str "X") none).1 =
      [placeholder_snippet (str "X")] := by
  have h : (raw_candidate_data (fun _ => none) (str "X") none).1 = [] := by decide
  have hc := C10_fetch_nonempty (fun _ => none) (str "X") none
  exact ⟨h, hc.1, hc.2 h⟩
